import Mathlib

/-!
Verification development for the spectrix peak-fitting scripts.

The central routine is `GaussianFit` in `src/root_conversions/gaussian_fitter.py`:
it fits a sum of Gaussian peaks plus an optional background model to a binned 1D
histogram, using the external lmfit nonlinear solver.  A second variant,
`MultipleGaussianFit`, lives in `src/tests/lmfit_test.py`.

This file shallowly embeds the deterministic parts of those routines:
all numeric data is modelled over `ℚ` (the Python code uses floats; every claim
settled here concerns control flow, data flow, parameter bookkeeping or exact
algebraic relations, none of which depend on rounding), and the two external
solver invocations (the background pre-fit `bg_model.fit` and the joint
`model.fit`) are abstract function parameters.  `runFit` additionally returns
the list of solver-call events that occurred, so that "before any solver call"
is expressible.  Fallible steps return `Except Err`; each `Err` constructor
corresponds to an exception the Python code can raise, with `errMessage`
recording the accompanying message text.
-/

/-- Errors the `GaussianFit` pipeline can raise.  The first three are explicit
`raise ValueError(...)` statements in `gaussian_fitter.py`; `indexError` models
the `IndexError` from `centers[1]` / `x_data[1]` on too-short arrays, and
`argmaxEmpty` / `argminEmpty` model numpy's `ValueError` on `argmax` / `argmin`
of an empty sequence. -/
inductive Err where
  | lengthMismatch
  | indexError
  | regionMarkersCount
  | argmaxEmpty
  | argminEmpty
  | unsupportedBg
deriving DecidableEq, Repr

/-- Message text attached to each error in the Python source (for the numpy
errors, the message numpy raises). -/
def errMessage : Err → String
  | .lengthMismatch => "The length of edges must be one more than the length of counts."
  | .indexError => "index 1 is out of bounds"
  | .regionMarkersCount => "Region markers must have exactly 2 values."
  | .argmaxEmpty => "attempt to get argmax of an empty sequence"
  | .argminEmpty => "attempt to get argmin of an empty sequence"
  | .unsupportedBg => "Unsupported background model"

/-- Errors raised by an explicit `raise ValueError(...)` (a validation check)
in `GaussianFit`, as opposed to unguarded numpy/runtime exceptions. -/
def explicitRaises : List Err := [.lengthMismatch, .regionMarkersCount, .unsupportedBg]

/-- Solver-call events recorded while running the pipeline:
`bgSolve` is the background pre-fit `bg_model.fit(...)` (line 142),
`mainSolve` is the joint fit `model.fit(...)` (line 247). -/
inductive Event where
  | bgSolve
  | mainSolve
deriving DecidableEq, Repr

/-- One lmfit parameter as assembled by the repository code: current value,
optional lower/upper bound, vary flag, optional constraint expression. -/
structure ParamSpec where
  value : ℚ
  min : Option ℚ
  max : Option ℚ
  vary : Bool
  expr : Option String
deriving DecidableEq, Repr, Inhabited

/-- One background-coefficient entry of the `background_params` dictionary.
The Python value is a 5-tuple; `GaussianFit` only ever reads elements `[3]`
(initial value) and `[4]` (vary flag), so only those are modelled. -/
structure BgCoef where
  init : ℚ
  vary : Bool
deriving DecidableEq, Repr

/-- The `background_params` dictionary argument of `GaussianFit`. -/
structure BgParams where
  bg_type : String
  slope : BgCoef
  intercept : BgCoef
  a : BgCoef
  b : BgCoef
  c : BgCoef
  amplitude : BgCoef
  decay : BgCoef
  exponent : BgCoef
deriving DecidableEq, Repr

/-- The default `background_params` dictionary of `GaussianFit`
(gaussian_fitter.py lines 15-24): initial values from element `[3]` of each
tuple, vary flags from element `[4]`. -/
def defaultBgParams : BgParams :=
  { bg_type := "linear"
    slope := ⟨1, true⟩
    intercept := ⟨0, true⟩
    a := ⟨0, true⟩
    b := ⟨1, true⟩
    c := ⟨0, true⟩
    amplitude := ⟨1, true⟩
    decay := ⟨1, true⟩
    exponent := ⟨1, true⟩ }

/-- Result of the external background pre-fit (`bg_result`): fitted values by
parameter name, and the fitted model as a function of x (`bg_result.eval`). -/
structure BgResult where
  values : List (String × ℚ)
  evalAt : ℚ → ℚ

/-- A fitted parameter in the joint-fit result: value and optional standard
error (`stderr` is `None` when the optimizer could not estimate it). -/
structure PValue where
  value : ℚ
  stderr : Option ℚ
deriving DecidableEq, Repr, Inhabited

/-- Result of the external joint fit (`result`): all parameters by name, and
the fitted curve as a function of x (`result.eval`). -/
structure MainResult where
  params : List (String × PValue)
  evalAt : ℚ → ℚ

/-- The per-peak tuple appended to `gaussian_params`
(gaussian_fitter.py lines 262-276). -/
structure GaussOut where
  amplitude : ℚ
  ampUnc : ℚ
  center : ℚ
  centerUnc : ℚ
  sigma : ℚ
  sigmaUnc : ℚ
  fwhm : ℚ
  fwhmUnc : ℚ
  area : ℚ
  areaUnc : ℚ
deriving DecidableEq, Repr, Inhabited

/-- The tuple `GaussianFit` returns: Gaussian parameters, background
parameters, and the dense plotting curve. -/
structure FitOutput where
  gaussians : List GaussOut
  background : List (String × ℚ × ℚ)
  xLine : List ℚ
  yLine : List ℚ
deriving DecidableEq, Repr

/-- The parameters `GaussianFit` assembles for one Gaussian peak `g{i}_*`
(gaussian_fitter.py lines 205-244).  Since all keys `g{i}_...` are distinct
per peak, the flat string-keyed lmfit parameter dictionary restricted to peak
`i` is faithfully represented as one record. -/
structure PeakParamSet where
  amplitude : ParamSpec
  center : ParamSpec
  sigma : ParamSpec
  area : ParamSpec
deriving DecidableEq, Repr, Inhabited

/-- Everything `GaussianFit` computes deterministically before the first
solver call: bin width, sorted region bounds, region-restricted data, sorted
and filtered peak markers, background model tag and parameters, and the
background side-band data. -/
structure Plan where
  binWidth : ℚ
  lo : ℚ
  hi : ℚ
  xData : List ℚ
  yData : List ℚ
  peaks : List ℚ
  bgTag : String
  bgParams : List (String × ParamSpec)
  bgX : List ℚ
  bgY : List ℚ

/-- First index of the maximum of a list (`np.argmax`; ties resolved to the
first occurrence, as numpy does).  numpy raises on an empty array; callers
guard emptiness separately, so the empty case here returns 0. -/
def argmaxGo (bestIdx : Nat) (bestVal : ℚ) (i : Nat) : List ℚ → Nat
  | [] => bestIdx
  | v :: t => if bestVal < v then argmaxGo i v (i + 1) t else argmaxGo bestIdx bestVal (i + 1) t

/-- Entry point for `np.argmax` on a rational list. -/
def argmaxIdx : List ℚ → Nat
  | [] => 0
  | v :: t => argmaxGo 0 v 1 t

/-- First index of the minimum of a list (`np.argmin`). -/
def argminGo (bestIdx : Nat) (bestVal : ℚ) (i : Nat) : List ℚ → Nat
  | [] => bestIdx
  | v :: t => if v < bestVal then argminGo i v (i + 1) t else argminGo bestIdx bestVal (i + 1) t

/-- Entry point for `np.argmin` on a rational list. -/
def argminIdx : List ℚ → Nat
  | [] => 0
  | v :: t => argminGo 0 v 1 t

/-- `np.linspace a b n`: `n` evenly spaced points from `a` to `b` inclusive. -/
def linspaceQ (a b : ℚ) (n : Nat) : List ℚ :=
  if n = 1 then [a]
  else (List.range n).map (fun k => a + (b - a) * k / ((n : ℚ) - 1))

/-- Whether `pat` is a prefix of `s`, on character lists. -/
def charsHavePre : List Char → List Char → Bool
  | [], _ => true
  | _ :: _, [] => false
  | a :: as, b :: bs => a == b && charsHavePre as bs

/-- Whether `pat` occurs as a contiguous sublist of `s`, on character lists. -/
def charsContain (pat : List Char) : List Char → Bool
  | [] => charsHavePre pat []
  | b :: bs => charsHavePre pat (b :: bs) || charsContain pat bs

/-- Python's `pat in s` substring test. -/
def strContains (s pat : String) : Bool := charsContain pat.toList s.toList

/-- Lookup of a parameter in a joint-fit result by name
(`result.params[name]`); lmfit results contain every assembled parameter, so
the default is never reached on the real system. -/
def lookupPV (l : List (String × PValue)) (k : String) : PValue :=
  ((l.find? (fun kv => kv.1 == k)).map Prod.snd).getD ⟨0, none⟩

/-- Membership test of a bin center in the closed fitting region
(`centers >= region_markers[0]) & (centers <= region_markers[1]`, line 77;
same comparison filters peak markers, line 92). -/
def regionPred (lo hi c : ℚ) : Bool := decide (lo ≤ c ∧ c ≤ hi)

/-- Membership of a bin center in one (sorted) background-marker range
(`(centers >= bg_start) & (centers <= bg_end)` after
`bg_start, bg_end = sorted([bg_start, bg_end])`, lines 133-135). -/
def rangePred (r : ℚ × ℚ) (c : ℚ) : Bool :=
  decide (min r.1 r.2 ≤ c ∧ c ≤ max r.1 r.2)

/-- The background ranges actually used: the caller's `background_markers`, or,
when none were given, one bin-width just outside each region edge
(`[(region_markers[0]-bin_width, region_markers[0]), (region_markers[1],
region_markers[1]+bin_width)]`, lines 125-127). -/
def effectiveBgRanges (lo hi w : ℚ) (bgm : List (ℚ × ℚ)) : List (ℚ × ℚ) :=
  if bgm.isEmpty then [(lo - w, lo), (hi, hi + w)] else bgm

/-- The (center, count) pairs collected for the background pre-fit, one block
per background range in order (`bg_x.extend / bg_y.extend`, lines 129-140). -/
def bgCollect (centers counts : List ℚ) (ranges : List (ℚ × ℚ)) : List (ℚ × ℚ) :=
  (ranges.map (fun r => (centers.zip counts).filter (fun p => rangePred r p.1))).flatten

/-- The background-model dispatch of `GaussianFit` (lines 94-122): builds the
`bg_*` lmfit parameters from `background_params`, or fails with the
`Unsupported background model` error.  Initial values come from tuple element
`[3]`, vary flags from `[4]`; the `"None"` variant is a constant fixed at 0. -/
def bgDispatch (bp : BgParams) : Except Err (List (String × ParamSpec)) :=
  if bp.bg_type = "linear" then
    .ok [("bg_slope", ⟨bp.slope.init, none, none, bp.slope.vary, none⟩),
         ("bg_intercept", ⟨bp.intercept.init, none, none, bp.intercept.vary, none⟩)]
  else if bp.bg_type = "quadratic" then
    .ok [("bg_a", ⟨bp.a.init, none, none, bp.a.vary, none⟩),
         ("bg_b", ⟨bp.b.init, none, none, bp.b.vary, none⟩),
         ("bg_c", ⟨bp.c.init, none, none, bp.c.vary, none⟩)]
  else if bp.bg_type = "exponential" then
    .ok [("bg_amplitude", ⟨bp.amplitude.init, none, none, bp.amplitude.vary, none⟩),
         ("bg_decay", ⟨bp.decay.init, none, none, bp.decay.vary, none⟩)]
  else if bp.bg_type = "powerlaw" then
    .ok [("bg_amplitude", ⟨bp.amplitude.init, none, none, bp.amplitude.vary, none⟩),
         ("bg_exponent", ⟨bp.exponent.init, none, none, bp.exponent.vary, none⟩)]
  else if bp.bg_type = "None" then
    .ok [("bg_c", ⟨0, none, none, false, none⟩)]
  else .error .unsupportedBg

/-- After the background pre-fit, every background coefficient is set to its
fitted value and frozen (`params[param].set(value=..., vary=False)`,
lines 152-154).  This happens unconditionally. -/
def freezeBg (r : BgResult) (ps : List (String × ParamSpec)) : List (String × ParamSpec) :=
  ps.map (fun p =>
    (p.1, { p.2 with
             value := ((r.values.find? (fun kv => kv.1 == p.1)).map Prod.snd).getD p.2.value
             vary := false }))

/-- The half-maximum crossings searched by `estimate_sigma`
(gaussian_fitter.py lines 165-178): index closest to the peak, indices left /
right of it at or below half the peak height; `none` when either side has no
such index (the fallback case). -/
def sigmaCrossings (xData yData : List ℚ) (peak : ℚ) : Option (ℚ × ℚ) :=
  let peakIdx := argminIdx (xData.map (fun v => |v - peak|))
  let half := yData.getD peakIdx 0 / 2
  let leftIdx := (List.range peakIdx).filter (fun i => decide (yData.getD i 0 ≤ half))
  let rightIdx := ((List.range (yData.length - peakIdx)).map (fun j => j + peakIdx)).filter
      (fun i => decide (yData.getD i 0 ≤ half))
  if leftIdx.isEmpty || rightIdx.isEmpty then none
  else some (xData.getD (leftIdx.getLastD 0) 0, xData.getD (rightIdx.headD 0) 0)

/-- `estimate_sigma` (gaussian_fitter.py lines 165-181): with both crossings
found, `max(fwhm / 2.3548, 2 * bin_width)`; otherwise `2 * bin_width`, where
the bin width is `x_data[1] - x_data[0]`. -/
def estimate_sigma (xData yData : List ℚ) (peak : ℚ) : ℚ :=
  match sigmaCrossings xData yData peak with
  | none => (xData.getD 1 0 - xData.getD 0 0) * 2
  | some (lf, rf) =>
      max ((rf - lf) / (2.3548 : ℚ)) ((xData.getD 1 0 - xData.getD 0 0) * 2)

/-- The constraint-expression string installed for the derived area parameter
(`params.add(f'g{i}_area', expr=f'g{i}_amplitude / {bin_width}')`, line 217;
the Python source interpolates the numeric bin width into the string). -/
def areaExprString (i : Nat) : String := "g" ++ toString i ++ "_amplitude / bin_width"

/-- The lmfit parameters `GaussianFit` assembles for peak `i`
(gaussian_fitter.py lines 205-244):
amplitude from the height-based estimate with no bounds; sigma bounded below
by 0, or tied to `g0_sigma` for later peaks in equal-sigma mode; the derived
area `amplitude / bin_width` bounded below by 0; the center at the peak guess,
non-varying when positions are fixed, bounded by the region edges for a single
peak and otherwise by the neighboring peak or one estimated sigma, clamped to
the region. -/
def mkPeakParamSet (lo hi sigma0 binWidth : ℚ) (equalSigma freePos : Bool)
    (peaks amps : List ℚ) (i : Nat) : PeakParamSet :=
  let peak := peaks.getD i 0
  let ampInit := amps.getD i 0
  let amplitudeSpec : ParamSpec := ⟨ampInit, none, none, true, none⟩
  let sigmaSpec : ParamSpec :=
    if equalSigma ∧ 0 < i then ⟨sigma0, none, none, false, some "g0_sigma"⟩
    else ⟨sigma0, some 0, none, true, none⟩
  let areaSpec : ParamSpec := ⟨ampInit / binWidth, some 0, none, false, some (areaExprString i)⟩
  let centerSpec : ParamSpec :=
    if peaks.length = 1 then ⟨peak, some lo, some hi, freePos, none⟩
    else
      let prev := if i = 0 then lo else peaks.getD (i - 1) 0
      let next := if i = peaks.length - 1 then hi else peaks.getD (i + 1) 0
      let sigmaRange : ℚ := 1
      let minVal := if |peak - prev| ≤ sigmaRange * sigma0 then prev else peak - sigmaRange * sigma0
      let maxVal := if |peak - next| ≤ sigmaRange * sigma0 then next else peak + sigmaRange * sigma0
      ⟨peak, some (max lo minVal), some (min hi maxVal), freePos, none⟩
  ⟨amplitudeSpec, centerSpec, sigmaSpec, areaSpec⟩

/-- The full list of per-peak parameter sets (`for i, peak in
enumerate(peak_markers)`, line 205). -/
def assemblePeakParams (lo hi sigma0 binWidth : ℚ) (equalSigma freePos : Bool)
    (peaks amps : List ℚ) : List PeakParamSet :=
  (List.range peaks.length).map (mkPeakParamSet lo hi sigma0 binWidth equalSigma freePos peaks amps)

/-- Result extraction (gaussian_fitter.py lines 259-289): per peak the values
and uncertainties of amplitude, center, sigma, fwhm and area, with a missing
standard error (`stderr or 0.0`) reported as 0; the background coefficients
(keys containing `bg_`) likewise, unless the background type is `"None"`; plus
the dense plotting curve over `np.linspace(x_data[0], x_data[-1],
5 * len(x_data))`. -/
def extractOutput (bgTag : String) (n : Nat) (res : MainResult) (xData : List ℚ) : FitOutput :=
  let gauss := (List.range n).map (fun i =>
    let amp := lookupPV res.params ("g" ++ toString i ++ "_amplitude")
    let cen := lookupPV res.params ("g" ++ toString i ++ "_center")
    let sig := lookupPV res.params ("g" ++ toString i ++ "_sigma")
    let fw := lookupPV res.params ("g" ++ toString i ++ "_fwhm")
    let ar := lookupPV res.params ("g" ++ toString i ++ "_area")
    { amplitude := amp.value, ampUnc := amp.stderr.getD 0
      center := cen.value, centerUnc := cen.stderr.getD 0
      sigma := sig.value, sigmaUnc := sig.stderr.getD 0
      fwhm := fw.value, fwhmUnc := fw.stderr.getD 0
      area := ar.value, areaUnc := ar.stderr.getD 0 : GaussOut })
  let bg := if bgTag = "None" then []
    else (res.params.filter (fun kv => strContains kv.1 "bg_")).map
      (fun kv => (kv.1, kv.2.value, kv.2.stderr.getD 0))
  let xLine := linspaceQ (xData.getD 0 0) (xData.getD (xData.length - 1) 0) (5 * xData.length)
  ⟨gauss, bg, xLine, xLine.map res.evalAt⟩

/-- Deterministic work of `GaussianFit` after the region has been sorted:
region restriction (lines 77-80), default peak marker from the maximum bin
(lines 83-86, numpy's argmax raising on an empty region), sorting and
region-filtering of the peak markers (lines 89-92), background dispatch
(lines 94-122) and side-band collection (lines 124-140). -/
def mkPlanCore (counts centers : List ℚ) (lo hi w : ℚ) (peakMarkers : List ℚ)
    (bgm : List (ℚ × ℚ)) (bp : BgParams) : Except Err Plan :=
  let regionPairs := (centers.zip counts).filter (fun p => regionPred lo hi p.1)
  let xData := regionPairs.map Prod.fst
  let yData := regionPairs.map Prod.snd
  if peakMarkers.isEmpty && yData.isEmpty then .error .argmaxEmpty
  else
    let pm0 := if peakMarkers.isEmpty then [xData.getD (argmaxIdx yData) 0] else peakMarkers
    let pm1 := (List.insertionSort (· ≤ ·) pm0).filter (fun p => regionPred lo hi p)
    match bgDispatch bp with
    | .error e => .error e
    | .ok bgp =>
        let bgPairs := bgCollect centers counts (effectiveBgRanges lo hi w bgm)
        .ok ⟨w, lo, hi, xData, yData, pm1, bp.bg_type, bgp, bgPairs.map Prod.fst,
             bgPairs.map Prod.snd⟩

/-- All deterministic work of `GaussianFit` up to the background pre-fit:
the length check (lines 57-58), the bin width `centers[1] - centers[0]`
(line 63, an `IndexError` on fewer than two centers), the region-marker count
check (lines 66-74) and the sorting of the region markers (line 70), then
`mkPlanCore`. -/
def mkPlan (counts centers regionMarkers peakMarkers : List ℚ)
    (bgm : List (ℚ × ℚ)) (bp : BgParams) : Except Err Plan :=
  if centers.length ≠ counts.length then .error .lengthMismatch
  else if centers.length < 2 then .error .indexError
  else
    let w := centers.getD 1 0 - centers.getD 0 0
    if regionMarkers.length ≠ 2 then .error .regionMarkersCount
    else
      let m0 := regionMarkers.getD 0 0
      let m1 := regionMarkers.getD 1 0
      mkPlanCore counts centers (min m0 m1) (max m0 m1) w peakMarkers bgm bp

/-- The whole `GaussianFit` pipeline, parameterized over the two external
lmfit solver calls.  Follows the source order: plan construction, background
pre-fit (line 142) and unconditional freezing of its coefficients (lines
152-154), the strongest-peak search (lines 160-162, numpy raising on an empty
peak list or empty region data), `estimate_sigma` (line 184, an `IndexError`
on a single-bin region), amplitude estimation against the fitted background
(lines 187-201), the second sort of the peak markers and the parameter
assembly (lines 204-244), the joint fit (line 247) and result extraction.
The returned event list records which solver calls were made. -/
def runFit (bgSolve : String → List (String × ParamSpec) → List ℚ → List ℚ → BgResult)
    (mainSolve : List (String × ParamSpec) → List PeakParamSet → List ℚ → List ℚ → MainResult)
    (counts centers regionMarkers peakMarkers : List ℚ)
    (bgm : List (ℚ × ℚ)) (equalSigma freePos : Bool) (bp : BgParams) :
    Except Err FitOutput × List Event :=
  match mkPlan counts centers regionMarkers peakMarkers bgm bp with
  | .error e => (.error e, [])
  | .ok plan =>
      let bgRes := bgSolve plan.bgTag plan.bgParams plan.bgX plan.bgY
      let frozen := freezeBg bgRes plan.bgParams
      if plan.peaks.isEmpty then (.error .argmaxEmpty, [.bgSolve])
      else if plan.xData.isEmpty then (.error .argminEmpty, [.bgSolve])
      else if plan.xData.length < 2 then (.error .indexError, [.bgSolve])
      else
        let peakMaxIdx := argmaxIdx (plan.peaks.map (fun p =>
          plan.yData.getD (argminIdx (plan.xData.map (fun v => |v - p|))) 0))
        let peakWithMax := plan.peaks.getD peakMaxIdx 0
        let sigma0 := estimate_sigma plan.xData plan.yData peakWithMax
        let amps := plan.peaks.map (fun p =>
          (plan.yData.getD (argminIdx (plan.xData.map (fun v => |v - p|))) 0 - bgRes.evalAt p)
            * sigma0 / (0.3989423 : ℚ))
        let peaks2 := List.insertionSort (· ≤ ·) plan.peaks
        let pparams := assemblePeakParams plan.lo plan.hi sigma0 plan.binWidth
          equalSigma freePos peaks2 amps
        let res := mainSolve frozen pparams plan.xData plan.yData
        (.ok (extractOutput plan.bgTag peaks2.length res plan.xData), [.bgSolve, .mainSolve])

/-- A bin center influences the fit when it lies in the closed region or in
one of the effective background ranges; these are exactly the bins whose
counts reach a solver call. -/
def influentialB (lo hi w : ℚ) (bgm : List (ℚ × ℚ)) (c : ℚ) : Bool :=
  regionPred lo hi c || (effectiveBgRanges lo hi w bgm).any (fun r => rangePred r c)

/-- Side-band bin centers as the spec describes them, for comparison with the
code: bins within one bin-width immediately outside each region edge,
strictly outside the closed region `[lo, hi]`.  This definition follows the
spec's words, not the source. -/
def specStrictSideBandX (centers : List ℚ) (lo hi w : ℚ) : List ℚ :=
  centers.filter (fun c => decide ((lo - w ≤ c ∧ c < lo) ∨ (hi < c ∧ c ≤ hi + w)))

/-- The meaning of the derived-area expression `GaussianFit` installs:
`g{i}_amplitude / {bin_width}` (gaussian_fitter.py line 217).  Stated over an
arbitrary field so the same definition serves both the real-number claims and
decidable rational witnesses. -/
def gfAreaExpr {K : Type} [Field K] (amp w : K) : K := amp / w

/-- The meaning of the derived-area expression the tests' `MultipleGaussianFit`
installs: `g{i}_amplitude * sqrt(2 * pi) * g{i}_sigma / {bin_width}`
(src/tests/lmfit_test.py lines 104 and 127), with `s` standing for the value
of `sqrt(2 * pi)`. -/
def mgfAreaExpr {K : Type} [Field K] (s amp sigma w : K) : K := amp * s * sigma / w

/-- The spec's area formula: amplitude × width × √(2π) / bin-width, with `s`
standing for √(2π). -/
def specAreaFormula {K : Type} [Field K] (s amp sigma w : K) : K := amp * sigma * s / w

/-- Peak height of lmfit's `GaussianModel` in terms of its amplitude parameter:
the model is `A / (σ√(2π)) · exp(−(x−μ)²/(2σ²))`, so the height at the center
is `A / (σ√(2π))`; `s` stands for √(2π).  `GaussianFit` builds its peaks from
this model (gaussian_fitter.py line 207). -/
def gfHeight {K : Type} [Field K] (s A sigma : K) : K := A / (sigma * s)

/-- The lmfit `GaussianModel` line shape itself, used to ground `gfHeight`;
`expF` stands for the exponential function and `s` for √(2π). -/
def gaussianModelShape {K : Type} [Field K] (expF : K → K) (s A mu sigma x : K) : K :=
  A / (sigma * s) * expF (-(x - mu) ^ 2 / (2 * sigma ^ 2))

/-- One lmfit parameter of the tests' `MultipleGaussianFit`; parametric in the
scalar type because its area value involves √(2π). -/
structure MgfParamSpec (K : Type) where
  value : K
  min : Option K
  max : Option K
  vary : Bool
  expr : Option String
deriving DecidableEq

/-- The parameters the tests' `MultipleGaussianFit` assembles for peak `i`
(src/tests/lmfit_test.py lines 94-138): amplitude 1000 bounded below by 0,
sigma 10 bounded below by 0 (or tied to `g0_sigma` in equal-sigma mode for
later peaks), derived fwhm `2.35482 * g{i}_sigma` and derived area
`g{i}_amplitude * sqrt(2 * pi) * g{i}_sigma / {bin_width}`, both bounded below
by 0, and the mean at the peak guess bounded by neighbors / data edges,
non-varying when positions are fixed. -/
structure MgfPeakParamSet (K : Type) where
  amplitude : MgfParamSpec K
  mean : MgfParamSpec K
  sigma : MgfParamSpec K
  fwhm : MgfParamSpec K
  area : MgfParamSpec K
deriving DecidableEq

/-- Assembly of the tests' `MultipleGaussianFit` parameters for peak `i`;
`s` stands for the value of `sqrt(2 * pi)` in the area expression. -/
def mgfPeakParamSet {K : Type} [Field K] (s xFirst xLast : K) (peaks : List K) (binWidth : K)
    (equalSigma freePos : Bool) (i : Nat) : MgfPeakParamSet K :=
  let peak := peaks.getD i 0
  let sigmaSpec : MgfParamSpec K :=
    if equalSigma ∧ 0 < i then ⟨10, none, none, false, some "g0_sigma"⟩
    else ⟨10, some 0, none, true, none⟩
  let meanBounds : Option K × Option K :=
    if i = 0 then
      (some xFirst, some (if 1 < peaks.length then peaks.getD 1 0 else xLast))
    else
      (some (peaks.getD (i - 1) 0),
       some (if i + 1 < peaks.length then peaks.getD (i + 1) 0 else xLast))
  ⟨⟨1000, some 0, none, true, none⟩,
   ⟨peak, meanBounds.1, meanBounds.2, freePos, none⟩,
   sigmaSpec,
   ⟨(235482 : K) / 100000 * 10, some 0, none, false, some "2.35482 * sigma"⟩,
   ⟨mgfAreaExpr s 1000 10 binWidth, some 0, none, false,
    some "amplitude * sqrt(2 * pi) * sigma / bin_width"⟩⟩

/-- A concrete stand-in for the external background solver, used to exhibit
counterexamples: it returns the initial parameter values and evaluates to the
sum of the supplied y-data everywhere (any genuinely data-dependent solver
would do). -/
def testBgSolve (_tag : String) (ps : List (String × ParamSpec)) (_xs ys : List ℚ) : BgResult :=
  ⟨ps.map (fun p => (p.1, p.2.value)), fun _ => ys.sum⟩

/-- A concrete stand-in for the external joint solver, used to exhibit
counterexamples: it echoes every assembled parameter value with no standard
error. -/
def testMainSolve (bgps : List (String × ParamSpec)) (pparams : List PeakParamSet)
    (_xs _ys : List ℚ) : MainResult :=
  ⟨(pparams.enum.map (fun ip =>
      [("g" ++ toString ip.1 ++ "_amplitude", (⟨ip.2.amplitude.value, none⟩ : PValue)),
       ("g" ++ toString ip.1 ++ "_center", (⟨ip.2.center.value, none⟩ : PValue)),
       ("g" ++ toString ip.1 ++ "_sigma", (⟨ip.2.sigma.value, none⟩ : PValue)),
       ("g" ++ toString ip.1 ++ "_fwhm", (⟨(2.3548 : ℚ) * ip.2.sigma.value, none⟩ : PValue)),
       ("g" ++ toString ip.1 ++ "_area", (⟨ip.2.area.value, none⟩ : PValue))])).flatten
    ++ bgps.map (fun p => (p.1, (⟨p.2.value, none⟩ : PValue))),
   fun _ => 0⟩

/-- Decidable equality for `Except`, so counterexamples can compare whole
pipeline outcomes by evaluation. -/
instance {ε α : Type} [DecidableEq ε] [DecidableEq α] : DecidableEq (Except ε α) := fun a b =>
  match a, b with
  | .error e, .error f =>
      if h : e = f then .isTrue (congrArg Except.error h)
      else .isFalse (fun hc => h (Except.error.inj hc))
  | .ok x, .ok y =>
      if h : x = y then .isTrue (congrArg Except.ok h)
      else .isFalse (fun hc => h (Except.ok.inj hc))
  | .error _, .ok _ => .isFalse (fun hc => Except.noConfusion hc)
  | .ok _, .error _ => .isFalse (fun hc => Except.noConfusion hc)

/-- Whether an `Except` value is a success. -/
def exOk {ε α : Type} : Except ε α → Bool
  | .ok _ => true
  | .error _ => false

/-- A concrete joint-fit result with every standard error missing, used as a
witness input. -/
def testRes9 : MainResult :=
  ⟨[("g0_amplitude", ⟨5, none⟩), ("bg_slope", ⟨2, none⟩)], fun _ => 0⟩

/-- Projection used to separate two whole pipeline outcomes by evaluation:
the reported amplitude of the first fitted peak, when the fit succeeded. -/
def firstAmplitude (z : Except Err FitOutput × List Event) : Option ℚ :=
  match z.1 with
  | .ok o => some ((o.gaussians.getD 0 default).amplitude)
  | .error _ => none

/-- The y-data handed to the background pre-fit solver by a successful plan —
the counts that flow into the first external solver call. -/
def planBgY : Except Err Plan → Option (List ℚ)
  | .ok p => some p.bgY
  | .error _ => none

theorem mapRangeGetD {α : Type} (f : Nat → α) (n i : Nat) (d : α) (h : i < n) :
    ((List.range n).map f).getD i d = f i := by
  simp [List.getD_eq_getElem?_getD, List.getElem?_map, List.getElem?_range, h]

theorem zipFilterCongr (P : ℚ → Bool) (cs : List ℚ) :
    ∀ (as bs : List ℚ), as.length = bs.length →
      (∀ i, i < cs.length → P (cs.getD i 0) = true → as.getD i 0 = bs.getD i 0) →
      (cs.zip as).filter (fun p => P p.1) = (cs.zip bs).filter (fun p => P p.1) := by
  induction cs with
  | nil => intro as bs _ _; simp
  | cons c ct ih =>
      intro as bs hlen hag
      cases as with
      | nil => cases bs with
          | nil => simp
          | cons b bt => simp at hlen
      | cons a at' => cases bs with
          | nil => simp at hlen
          | cons b bt =>
              have h0 : P c = true → a = b := fun hp => by
                have := hag 0 (by simp) (by simpa using hp)
                simpa using this
              have hrec := ih at' bt (by simpa using hlen)
                (fun i hi hp => by
                  have := hag (i + 1) (by simpa using hi) (by simpa using hp)
                  simpa using this)
              simp only [List.zip_cons_cons, List.filter_cons]
              cases hP : P c with
              | false => simpa using hrec
              | true => simp [h0 hP, hrec]

theorem bgCollect_congr (centers as bs : List ℚ) (ranges : List (ℚ × ℚ))
    (hlen : as.length = bs.length)
    (hag : ∀ r ∈ ranges, ∀ i, i < centers.length → rangePred r (centers.getD i 0) = true →
      as.getD i 0 = bs.getD i 0) :
    bgCollect centers as ranges = bgCollect centers bs ranges := by
  unfold bgCollect
  congr 1
  apply List.map_congr_left
  intro r hr
  exact zipFilterCongr (rangePred r) centers as bs hlen (hag r hr)

theorem mkPlanCore_counts_congr (counts1 counts2 centers : List ℚ) (lo hi w : ℚ)
    (pm : List ℚ) (bgm : List (ℚ × ℚ)) (bp : BgParams)
    (hlen : counts1.length = counts2.length)
    (hag : ∀ i, i < centers.length → influentialB lo hi w bgm (centers.getD i 0) = true →
      counts1.getD i 0 = counts2.getD i 0) :
    mkPlanCore counts1 centers lo hi w pm bgm bp
      = mkPlanCore counts2 centers lo hi w pm bgm bp := by
  have hreg : (centers.zip counts1).filter (fun p => regionPred lo hi p.1)
      = (centers.zip counts2).filter (fun p => regionPred lo hi p.1) :=
    zipFilterCongr _ _ _ _ hlen
      (fun i hi' hp => hag i hi'
        (by simp only [influentialB, Bool.or_eq_true]; exact Or.inl hp))
  have hbg : bgCollect centers counts1 (effectiveBgRanges lo hi w bgm)
      = bgCollect centers counts2 (effectiveBgRanges lo hi w bgm) :=
    bgCollect_congr _ _ _ _ hlen
      (fun r hr i hi' hp => hag i hi' (by
        simp only [influentialB, Bool.or_eq_true, List.any_eq_true]
        exact Or.inr ⟨r, hr, hp⟩))
  unfold mkPlanCore
  rw [hreg, hbg]

theorem runFit_eq_of_plan (bgS : String → List (String × ParamSpec) → List ℚ → List ℚ → BgResult)
    (mS : List (String × ParamSpec) → List PeakParamSet → List ℚ → List ℚ → MainResult)
    (c1 ce1 rm1 pm1 : List ℚ) (bgm1 : List (ℚ × ℚ)) (bp1 : BgParams)
    (c2 ce2 rm2 pm2 : List ℚ) (bgm2 : List (ℚ × ℚ)) (bp2 : BgParams) (es fp : Bool)
    (h : mkPlan c1 ce1 rm1 pm1 bgm1 bp1 = mkPlan c2 ce2 rm2 pm2 bgm2 bp2) :
    runFit bgS mS c1 ce1 rm1 pm1 bgm1 es fp bp1
      = runFit bgS mS c2 ce2 rm2 pm2 bgm2 es fp bp2 := by
  unfold runFit
  rw [h]

theorem mkPlan_swap (counts centers pm : List ℚ) (bgm : List (ℚ × ℚ)) (bp : BgParams)
    (m0 m1 : ℚ) :
    mkPlan counts centers [m1, m0] pm bgm bp = mkPlan counts centers [m0, m1] pm bgm bp := by
  simp only [mkPlan, List.getD_cons_zero, List.getD_cons_succ, List.length_cons,
    List.length_nil]
  rw [min_comm m1 m0, max_comm m1 m0]

theorem bgDispatch_error_eq (bp : BgParams) (e : Err) (h : bgDispatch bp = .error e) :
    e = .unsupportedBg := by
  unfold bgDispatch at h
  split_ifs at h
  all_goals simp_all

theorem mkPlanCore_error_eq (counts centers : List ℚ) (lo hi w : ℚ) (pm : List ℚ)
    (bgm : List (ℚ × ℚ)) (bp : BgParams) (e : Err)
    (h : mkPlanCore counts centers lo hi w pm bgm bp = .error e) :
    e = .argmaxEmpty ∨ e = .unsupportedBg := by
  simp only [mkPlanCore] at h
  split_ifs at h
  all_goals try exact Or.inl (Except.error.inj h).symm
  all_goals
    split at h
    · next e' he' =>
        exact Or.inr ((Except.error.inj h).symm.trans (bgDispatch_error_eq bp e' he'))
    · exact absurd h (by simp)

theorem mkPlan_ne_lengthMismatch (counts centers rm pm : List ℚ) (bgm : List (ℚ × ℚ))
    (bp : BgParams) (hlen : centers.length = counts.length) :
    mkPlan counts centers rm pm bgm bp ≠ .error .lengthMismatch := by
  intro h
  unfold mkPlan at h
  rw [if_neg (not_not_intro hlen)] at h
  split_ifs at h
  · simp at h
  · simp at h
  · rcases mkPlanCore_error_eq _ _ _ _ _ _ _ _ _ h with h' | h' <;> simp at h'

/-- C10: `GaussianFit` checks `len(centers) == len(counts)` first; on a
mismatch it raises the `ValueError` of lines 57-58 before any other processing
— for every choice of external solvers the outcome is that bare error with an
empty solver-event trace — and with equal lengths the check passes, so the
mismatch error can no longer arise.  (The message speaks of edges being one
longer than counts, but the comparison enforces equal lengths.) -/
theorem C10_length_check
    (bgS : String → List (String × ParamSpec) → List ℚ → List ℚ → BgResult)
    (mS : List (String × ParamSpec) → List PeakParamSet → List ℚ → List ℚ → MainResult)
    (counts centers regionMarkers peakMarkers : List ℚ) (bgm : List (ℚ × ℚ))
    (es fp : Bool) (bp : BgParams) :
    (centers.length ≠ counts.length →
      runFit bgS mS counts centers regionMarkers peakMarkers bgm es fp bp
        = (.error .lengthMismatch, []))
    ∧ (centers.length = counts.length →
      (runFit bgS mS counts centers regionMarkers peakMarkers bgm es fp bp).1
        ≠ .error .lengthMismatch)
    ∧ errMessage .lengthMismatch
        = "The length of edges must be one more than the length of counts." := by
  refine ⟨?_, ?_, rfl⟩
  · intro h
    unfold runFit mkPlan
    rw [if_pos h]
  · intro h
    have hne := mkPlan_ne_lengthMismatch counts centers regionMarkers peakMarkers bgm bp h
    unfold runFit
    cases hp : mkPlan counts centers regionMarkers peakMarkers bgm bp with
    | error e =>
        intro hc
        simp only at hc
        exact hne (hp.trans (congrArg Except.error (Except.error.inj hc)))
    | ok plan =>
        simp only
        split_ifs <;> simp

/-- Witness for C10: a one-center, two-count call fails with the length error
and no solver events; an equal-length call never yields that error. -/
theorem C10_length_check_witness :
    (([1] : List ℚ).length ≠ ([1, 2] : List ℚ).length
      ∧ runFit testBgSolve testMainSolve [1, 2] [1] [2, 4] [] [] true true defaultBgParams
          = (.error .lengthMismatch, []))
    ∧ (([0, 1, 2, 3, 4] : List ℚ).length = ([0, 1, 10, 1, 0] : List ℚ).length
      ∧ (runFit testBgSolve testMainSolve [0, 1, 10, 1, 0] [0, 1, 2, 3, 4] [1, 3] [2] [] true true
            defaultBgParams).1 ≠ .error .lengthMismatch) :=
  ⟨⟨by decide, (C10_length_check _ _ _ _ _ _ _ _ _ _).1 (by decide)⟩,
   ⟨rfl, (C10_length_check _ _ _ _ _ _ _ _ _ _).2.1 rfl⟩⟩

/-- C8 counterexample: for the unsupported background type `"cubic"`, the
dispatch raises the fixed message `Unsupported background model`, which does
not name the invalid choice. -/
theorem C8_counterexample :
    bgDispatch { defaultBgParams with bg_type := "cubic" } = .error .unsupportedBg
    ∧ errMessage .unsupportedBg = "Unsupported background model"
    ∧ strContains (errMessage .unsupportedBg) "cubic" = false := by
  refine ⟨by decide, rfl, by decide⟩

/-- C8 amended: an unsupported background type makes the fit fail with the
explicit `Unsupported background model` error before any solver call (empty
event trace), but the message is a fixed string that does not include the
invalid choice. -/
theorem C8_unsupported_bg
    (bgS : String → List (String × ParamSpec) → List ℚ → List ℚ → BgResult)
    (mS : List (String × ParamSpec) → List PeakParamSet → List ℚ → List ℚ → MainResult)
    (counts centers pm : List ℚ) (bgm : List (ℚ × ℚ)) (es fp : Bool) (bp : BgParams)
    (m0 m1 : ℚ)
    (hlen : centers.length = counts.length) (h2 : ¬ centers.length < 2)
    (hpm : pm ≠ [])
    (hbad : bp.bg_type ∉ (["linear", "quadratic", "exponential", "powerlaw", "None"] : List String)) :
    runFit bgS mS counts centers [m0, m1] pm bgm es fp bp = (.error .unsupportedBg, [])
    ∧ errMessage .unsupportedBg = "Unsupported background model" := by
  simp only [List.mem_cons, List.not_mem_nil, or_false, not_or] at hbad
  obtain ⟨hb1, hb2, hb3, hb4, hb5⟩ := hbad
  have hdis : bgDispatch bp = .error .unsupportedBg := by
    unfold bgDispatch
    rw [if_neg hb1, if_neg hb2, if_neg hb3, if_neg hb4, if_neg hb5]
  have hpm' : pm.isEmpty = false := by
    cases pm with
    | nil => exact absurd rfl hpm
    | cons a t => rfl
  have hplan : mkPlan counts centers [m0, m1] pm bgm bp = .error .unsupportedBg := by
    unfold mkPlan
    rw [if_neg (not_not_intro hlen), if_neg h2, if_neg (by simp)]
    simp only [mkPlanCore, hpm', Bool.false_and, Bool.false_eq_true, if_false, hdis]
  refine ⟨?_, rfl⟩
  unfold runFit
  rw [hplan]

/-- Witness for C8 amended, at a concrete five-bin histogram and the invalid
background type `"cubic"`. -/
theorem C8_unsupported_bg_witness :
    (([0, 1, 2, 3, 4] : List ℚ).length = ([0, 1, 10, 1, 0] : List ℚ).length
     ∧ ¬ ([0, 1, 2, 3, 4] : List ℚ).length < 2
     ∧ ([2] : List ℚ) ≠ []
     ∧ "cubic" ∉ (["linear", "quadratic", "exponential", "powerlaw", "None"] : List String))
    ∧ (runFit testBgSolve testMainSolve [0, 1, 10, 1, 0] [0, 1, 2, 3, 4] [1, 3] [2] [] true true
          { defaultBgParams with bg_type := "cubic" } = (.error .unsupportedBg, [])
       ∧ errMessage .unsupportedBg = "Unsupported background model") :=
  ⟨⟨rfl, by decide, by decide, by decide⟩,
   C8_unsupported_bg _ _ _ _ _ _ _ _ _ _ _ rfl (by decide) (by decide) (by decide)⟩

/-- C6 counterexample: on the region data x = [0..4], y = [0,10,0,0,0] with
peak guess 1, both half-maximum crossings are found (at x = 0 and x = 2), yet
the estimate equals exactly two bin-widths — not the crossing formula
(2 − 0)/2.3548 — because the source takes the larger of the two. -/
theorem C6_counterexample :
    sigmaCrossings [0, 1, 2, 3, 4] [0, 10, 0, 0, 0] 1 = some (0, 2)
    ∧ estimate_sigma [0, 1, 2, 3, 4] [0, 10, 0, 0, 0] 1
        = (([0, 1, 2, 3, 4] : List ℚ).getD 1 0 - ([0, 1, 2, 3, 4] : List ℚ).getD 0 0) * 2
    ∧ ((2 : ℚ) - 0) / (2.3548 : ℚ) ≠ estimate_sigma [0, 1, 2, 3, 4] [0, 10, 0, 0, 0] 1 := by
  refine ⟨?_, ?_, ?_⟩ <;> with_unfolding_all decide

/-- C6 amended: when both half-maximum crossings are found, the width estimate
is `max((right − left)/2.3548, 2·bin-width)` — so it equals the crossing
formula exactly when that formula is at least two bin-widths, and it can equal
two bin-widths outside the fallback case; the estimate is never below two
bin-widths, and the fallback (no crossing found) returns exactly two
bin-widths. -/
theorem C6_sigma_estimate (xData yData : List ℚ) (p lf rf : ℚ)
    (hc : sigmaCrossings xData yData p = some (lf, rf)) :
    estimate_sigma xData yData p
        = max ((rf - lf) / (2.3548 : ℚ)) ((xData.getD 1 0 - xData.getD 0 0) * 2)
    ∧ ((xData.getD 1 0 - xData.getD 0 0) * 2 ≤ (rf - lf) / (2.3548 : ℚ) →
        estimate_sigma xData yData p = (rf - lf) / (2.3548 : ℚ))
    ∧ (xData.getD 1 0 - xData.getD 0 0) * 2 ≤ estimate_sigma xData yData p
    ∧ (∀ x y : List ℚ, ∀ q : ℚ, sigmaCrossings x y q = none →
        estimate_sigma x y q = (x.getD 1 0 - x.getD 0 0) * 2) := by
  have he : estimate_sigma xData yData p
      = max ((rf - lf) / (2.3548 : ℚ)) ((xData.getD 1 0 - xData.getD 0 0) * 2) := by
    unfold estimate_sigma
    rw [hc]
  refine ⟨he, fun hle => ?_, ?_, fun x y q hq => ?_⟩
  · rw [he]; exact max_eq_left hle
  · rw [he]; exact le_max_right _ _
  · unfold estimate_sigma; rw [hq]

/-- Witness for C6 amended at a concrete symmetric peak, whose crossings are
found at x = 1 and x = 3. -/
theorem C6_sigma_estimate_witness :
    sigmaCrossings [0, 1, 2, 3, 4] [0, 0, 10, 0, 0] 2 = some (1, 3)
    ∧ (estimate_sigma [0, 1, 2, 3, 4] [0, 0, 10, 0, 0] 2
          = max (((3 : ℚ) - 1) / (2.3548 : ℚ))
              ((([0, 1, 2, 3, 4] : List ℚ).getD 1 0 - ([0, 1, 2, 3, 4] : List ℚ).getD 0 0) * 2)
       ∧ ((([0, 1, 2, 3, 4] : List ℚ).getD 1 0 - ([0, 1, 2, 3, 4] : List ℚ).getD 0 0) * 2
            ≤ ((3 : ℚ) - 1) / (2.3548 : ℚ) →
          estimate_sigma [0, 1, 2, 3, 4] [0, 0, 10, 0, 0] 2 = ((3 : ℚ) - 1) / (2.3548 : ℚ))
       ∧ (([0, 1, 2, 3, 4] : List ℚ).getD 1 0 - ([0, 1, 2, 3, 4] : List ℚ).getD 0 0) * 2
            ≤ estimate_sigma [0, 1, 2, 3, 4] [0, 0, 10, 0, 0] 2
       ∧ (∀ x y : List ℚ, ∀ q : ℚ, sigmaCrossings x y q = none →
            estimate_sigma x y q = (x.getD 1 0 - x.getD 0 0) * 2)) :=
  ⟨by with_unfolding_all decide,
   C6_sigma_estimate [0, 1, 2, 3, 4] [0, 0, 10, 0, 0] 2 1 3 (by with_unfolding_all decide)⟩

/-- C7 counterexample: at a concrete invocation (single peak at 3, estimated
amplitude 5), the assembled `g0_amplitude` parameter of `GaussianFit` has no
lower bound at all — the code never constrains the amplitude, only the derived
area. -/
theorem C7_counterexample :
    (assemblePeakParams 2 4 1 1 true true [3] [5]).map (fun P => P.amplitude.min) = [none]
    ∧ (assemblePeakParams 2 4 1 1 true true [3] [5]).map (fun P => P.amplitude.vary) = [true] := by
  refine ⟨by with_unfolding_all decide, by with_unfolding_all decide⟩

/-- C7 amended: the parameter set `GaussianFit` assembles bounds each width
below by 0 (for the first peak and in non-equal-width mode) or ties it to
`g0_sigma` by an equality expression (later peaks in equal-width mode), and
bounds the derived area below by 0 — but places no bound at all on the
amplitude; the center's vary flag follows the free-position argument.  Only
the tests' `MultipleGaussianFit` additionally constrains each amplitude ≥ 0,
with the width handled as the claim states. -/
theorem C7_constraints (lo hi sigma0 binWidth : ℚ) (es fp : Bool) (peaks amps : List ℚ)
    (i : Nat) (h : i < peaks.length) :
    ((assemblePeakParams lo hi sigma0 binWidth es fp peaks amps).getD i default).amplitude.min = none
    ∧ ((assemblePeakParams lo hi sigma0 binWidth es fp peaks amps).getD i default).area.min = some 0
    ∧ (es = true → 0 < i →
        ((assemblePeakParams lo hi sigma0 binWidth es fp peaks amps).getD i default).sigma.expr
          = some "g0_sigma")
    ∧ ((es = false ∨ i = 0) →
        ((assemblePeakParams lo hi sigma0 binWidth es fp peaks amps).getD i default).sigma.min
            = some 0
        ∧ ((assemblePeakParams lo hi sigma0 binWidth es fp peaks amps).getD i default).sigma.expr
            = none)
    ∧ ((assemblePeakParams lo hi sigma0 binWidth es fp peaks amps).getD i default).center.vary = fp
    ∧ (∀ (K : Type) [Field K], ∀ (s xF xL : K) (pk : List K) (bw : K) (es2 fp2 : Bool) (j : Nat),
        (mgfPeakParamSet s xF xL pk bw es2 fp2 j).amplitude.min = some 0
        ∧ (es2 = true → 0 < j →
            (mgfPeakParamSet s xF xL pk bw es2 fp2 j).sigma.expr = some "g0_sigma")
        ∧ ((es2 = false ∨ j = 0) →
            (mgfPeakParamSet s xF xL pk bw es2 fp2 j).sigma.min = some 0)) := by
  have hg : (assemblePeakParams lo hi sigma0 binWidth es fp peaks amps).getD i default
      = mkPeakParamSet lo hi sigma0 binWidth es fp peaks amps i := by
    unfold assemblePeakParams
    exact mapRangeGetD _ _ _ _ h
  rw [hg]
  refine ⟨by simp [mkPeakParamSet], by simp [mkPeakParamSet], ?_, ?_, ?_, ?_⟩
  · intro hes hi0
    simp [mkPeakParamSet, hes, hi0]
  · rintro (hf | h0)
    · simp [mkPeakParamSet, hf]
    · simp [mkPeakParamSet, h0]
  · simp only [mkPeakParamSet]
    split <;> rfl
  · intro K _ s xF xL pk bw es2 fp2 j
    refine ⟨by simp [mgfPeakParamSet], ?_, ?_⟩
    · intro hes hj
      simp [mgfPeakParamSet, hes, hj]
    · rintro (hf | h0)
      · simp [mgfPeakParamSet, hf]
      · simp [mgfPeakParamSet, h0]

/-- Witness for C7 amended at a concrete two-peak equal-width invocation. -/
theorem C7_constraints_witness :
    (1 < ([3, 5] : List ℚ).length)
    ∧ (((assemblePeakParams 2 4 1 1 true true [3, 5] [5, 6]).getD 1 default).amplitude.min = none
    ∧ ((assemblePeakParams 2 4 1 1 true true [3, 5] [5, 6]).getD 1 default).area.min = some 0
    ∧ (true = true → 0 < 1 →
        ((assemblePeakParams 2 4 1 1 true true [3, 5] [5, 6]).getD 1 default).sigma.expr
          = some "g0_sigma")
    ∧ ((true = false ∨ 1 = 0) →
        ((assemblePeakParams 2 4 1 1 true true [3, 5] [5, 6]).getD 1 default).sigma.min = some 0
        ∧ ((assemblePeakParams 2 4 1 1 true true [3, 5] [5, 6]).getD 1 default).sigma.expr = none)
    ∧ ((assemblePeakParams 2 4 1 1 true true [3, 5] [5, 6]).getD 1 default).center.vary = true
    ∧ (∀ (K : Type) [Field K], ∀ (s xF xL : K) (pk : List K) (bw : K) (es2 fp2 : Bool) (j : Nat),
        (mgfPeakParamSet s xF xL pk bw es2 fp2 j).amplitude.min = some 0
        ∧ (es2 = true → 0 < j →
            (mgfPeakParamSet s xF xL pk bw es2 fp2 j).sigma.expr = some "g0_sigma")
        ∧ ((es2 = false ∨ j = 0) →
            (mgfPeakParamSet s xF xL pk bw es2 fp2 j).sigma.min = some 0))) :=
  ⟨by decide, C7_constraints 2 4 1 1 true true [3, 5] [5, 6] 1 (by decide)⟩

/-- C9: when a fitted parameter's standard error is missing (`stderr or 0.0`
in gaussian_fitter.py lines 262-285), the extraction still produces the full
result — one tuple per peak — and reports that parameter's uncertainty as
exactly 0; this holds for each of amplitude, center, sigma, FWHM and area, and
for every background coefficient. -/
theorem C9_missing_stderr (bgTag : String) (n : Nat) (res : MainResult) (xd : List ℚ)
    (i : Nat) (h : i < n) :
    ((lookupPV res.params ("g" ++ toString i ++ "_amplitude")).stderr = none →
      ((extractOutput bgTag n res xd).gaussians.getD i default).ampUnc = 0)
    ∧ ((lookupPV res.params ("g" ++ toString i ++ "_center")).stderr = none →
      ((extractOutput bgTag n res xd).gaussians.getD i default).centerUnc = 0)
    ∧ ((lookupPV res.params ("g" ++ toString i ++ "_sigma")).stderr = none →
      ((extractOutput bgTag n res xd).gaussians.getD i default).sigmaUnc = 0)
    ∧ ((lookupPV res.params ("g" ++ toString i ++ "_fwhm")).stderr = none →
      ((extractOutput bgTag n res xd).gaussians.getD i default).fwhmUnc = 0)
    ∧ ((lookupPV res.params ("g" ++ toString i ++ "_area")).stderr = none →
      ((extractOutput bgTag n res xd).gaussians.getD i default).areaUnc = 0)
    ∧ (∀ k pv, (k, pv) ∈ res.params → strContains k "bg_" = true → pv.stderr = none →
        bgTag ≠ "None" → (k, pv.value, 0) ∈ (extractOutput bgTag n res xd).background)
    ∧ (extractOutput bgTag n res xd).gaussians.length = n := by
  have hg : (extractOutput bgTag n res xd).gaussians.getD i default
      = { amplitude := (lookupPV res.params ("g" ++ toString i ++ "_amplitude")).value
          ampUnc := (lookupPV res.params ("g" ++ toString i ++ "_amplitude")).stderr.getD 0
          center := (lookupPV res.params ("g" ++ toString i ++ "_center")).value
          centerUnc := (lookupPV res.params ("g" ++ toString i ++ "_center")).stderr.getD 0
          sigma := (lookupPV res.params ("g" ++ toString i ++ "_sigma")).value
          sigmaUnc := (lookupPV res.params ("g" ++ toString i ++ "_sigma")).stderr.getD 0
          fwhm := (lookupPV res.params ("g" ++ toString i ++ "_fwhm")).value
          fwhmUnc := (lookupPV res.params ("g" ++ toString i ++ "_fwhm")).stderr.getD 0
          area := (lookupPV res.params ("g" ++ toString i ++ "_area")).value
          areaUnc := (lookupPV res.params ("g" ++ toString i ++ "_area")).stderr.getD 0 } := by
    simp only [extractOutput]
    exact mapRangeGetD _ _ _ _ h
  refine ⟨fun hs => ?_, fun hs => ?_, fun hs => ?_, fun hs => ?_, fun hs => ?_, ?_, ?_⟩
  · rw [hg]; simp [hs]
  · rw [hg]; simp [hs]
  · rw [hg]; simp [hs]
  · rw [hg]; simp [hs]
  · rw [hg]; simp [hs]
  · intro k pv hmem hcont hs htag
    simp only [extractOutput]
    rw [if_neg htag]
    refine List.mem_map.mpr ⟨(k, pv), List.mem_filter.mpr ⟨hmem, hcont⟩, ?_⟩
    simp [hs]
  · simp [extractOutput]

/-- Witness for C9 at a one-peak result whose standard errors are all
missing. -/
theorem C9_missing_stderr_witness :
    (0 < 1)
    ∧ (((lookupPV testRes9.params ("g" ++ toString 0 ++ "_amplitude")).stderr = none →
        ((extractOutput "linear" 1 testRes9 [0, 1]).gaussians.getD 0 default).ampUnc = 0)
    ∧ ((lookupPV testRes9.params ("g" ++ toString 0 ++ "_center")).stderr = none →
        ((extractOutput "linear" 1 testRes9 [0, 1]).gaussians.getD 0 default).centerUnc = 0)
    ∧ ((lookupPV testRes9.params ("g" ++ toString 0 ++ "_sigma")).stderr = none →
        ((extractOutput "linear" 1 testRes9 [0, 1]).gaussians.getD 0 default).sigmaUnc = 0)
    ∧ ((lookupPV testRes9.params ("g" ++ toString 0 ++ "_fwhm")).stderr = none →
        ((extractOutput "linear" 1 testRes9 [0, 1]).gaussians.getD 0 default).fwhmUnc = 0)
    ∧ ((lookupPV testRes9.params ("g" ++ toString 0 ++ "_area")).stderr = none →
        ((extractOutput "linear" 1 testRes9 [0, 1]).gaussians.getD 0 default).areaUnc = 0)
    ∧ (∀ k pv, (k, pv) ∈ testRes9.params → strContains k "bg_" = true → pv.stderr = none →
        "linear" ≠ "None" →
        (k, pv.value, 0) ∈ (extractOutput "linear" 1 testRes9 [0, 1]).background)
    ∧ (extractOutput "linear" 1 testRes9 [0, 1]).gaussians.length = 1) :=
  ⟨by decide, C9_missing_stderr "linear" 1 testRes9 [0, 1] 0 (by decide)⟩

/-- C5 counterexample: with centers 0..4, bin width 1 and region [1, 3], the
default side-band collection includes the bins at centers 1 and 3 — which lie
inside the closed region — so the side-bands are not strictly outside
[low, high]; and freezing overrides a caller-supplied vary flag of `True`
unconditionally. -/
theorem C5_counterexample :
    (bgCollect [0, 1, 2, 3, 4] [1, 2, 3, 4, 5] (effectiveBgRanges 1 3 1 [])).map Prod.fst
        = [0, 1, 3, 4]
    ∧ (bgCollect [0, 1, 2, 3, 4] [1, 2, 3, 4, 5] (effectiveBgRanges 1 3 1 [])).map Prod.fst
        ≠ specStrictSideBandX [0, 1, 2, 3, 4] 1 3 1
    ∧ freezeBg ⟨[("bg_slope", 7)], fun _ => 0⟩ [("bg_slope", ⟨1, none, none, true, none⟩)]
        = [("bg_slope", ⟨7, none, none, false, none⟩)] := by
  refine ⟨?_, ?_, ?_⟩ <;> with_unfolding_all decide

/-- C5 amended: when no background ranges are supplied, the side-bands are the
closed intervals [low − w, low] and [high, high + w] (one bin-width around each
region edge, including a bin that sits exactly on the edge), the pre-fit model
contains no peak term, and after the pre-fit every background coefficient is
set non-varying unconditionally, with its value taken from the pre-fit
result. -/
theorem C5_sideband (centers counts : List ℚ) (lo hi w : ℚ) (hw : 0 ≤ w)
    (p : ℚ × ℚ) (r : BgResult) (ps : List (String × ParamSpec)) (q : String × ParamSpec) :
    effectiveBgRanges lo hi w [] = [(lo - w, lo), (hi, hi + w)]
    ∧ (p ∈ bgCollect centers counts (effectiveBgRanges lo hi w [])
        ↔ p ∈ centers.zip counts
          ∧ ((lo - w ≤ p.1 ∧ p.1 ≤ lo) ∨ (hi ≤ p.1 ∧ p.1 ≤ hi + w)))
    ∧ (q ∈ freezeBg r ps → q.2.vary = false)
    ∧ (freezeBg r ps).length = ps.length := by
  have h1 : effectiveBgRanges lo hi w ([] : List (ℚ × ℚ)) = [(lo - w, lo), (hi, hi + w)] := by
    simp [effectiveBgRanges]
  refine ⟨h1, ?_, ?_, by simp [freezeBg]⟩
  · rw [h1]
    simp only [bgCollect, List.map_cons, List.map_nil, List.flatten_cons, List.flatten_nil,
      List.append_nil, List.mem_append, List.mem_filter, rangePred, decide_eq_true_eq]
    rw [min_eq_left (by linarith : lo - w ≤ lo), max_eq_right (by linarith : lo - w ≤ lo),
        min_eq_left (by linarith : hi ≤ hi + w), max_eq_right (by linarith : hi ≤ hi + w)]
    tauto
  · intro hq
    rcases List.mem_map.mp hq with ⟨p', _, hp'⟩
    rw [← hp']

/-- Witness for C5 amended: the bin at center 1 — exactly on the region edge —
is collected into the side-band data, and a vary-true coefficient is frozen. -/
theorem C5_sideband_witness :
    ((0 : ℚ) ≤ 1)
    ∧ (effectiveBgRanges 1 3 1 [] = [((1 : ℚ) - 1, 1), (3, (3 : ℚ) + 1)]
    ∧ (((1 : ℚ), (2 : ℚ)) ∈ bgCollect [0, 1, 2, 3, 4] [1, 2, 3, 4, 5] (effectiveBgRanges 1 3 1 [])
        ↔ ((1 : ℚ), (2 : ℚ)) ∈ ([0, 1, 2, 3, 4] : List ℚ).zip [1, 2, 3, 4, 5]
          ∧ (((1 : ℚ) - 1 ≤ 1 ∧ (1 : ℚ) ≤ 1) ∨ ((3 : ℚ) ≤ 1 ∧ (1 : ℚ) ≤ 3 + 1)))
    ∧ (("bg_slope", (⟨7, none, none, false, none⟩ : ParamSpec))
          ∈ freezeBg ⟨[("bg_slope", 7)], fun _ => 0⟩ [("bg_slope", ⟨1, none, none, true, none⟩)] →
        (⟨7, none, none, false, none⟩ : ParamSpec).vary = false)
    ∧ (freezeBg ⟨[("bg_slope", 7)], fun _ => 0⟩
          [("bg_slope", (⟨1, none, none, true, none⟩ : ParamSpec))]).length
        = [("bg_slope", (⟨1, none, none, true, none⟩ : ParamSpec))].length) :=
  ⟨by norm_num,
   C5_sideband [0, 1, 2, 3, 4] [1, 2, 3, 4, 5] 1 3 1 (by norm_num) (1, 2)
     ⟨[("bg_slope", 7)], fun _ => 0⟩ [("bg_slope", ⟨1, none, none, true, none⟩)]
     ("bg_slope", ⟨7, none, none, false, none⟩)⟩

/-- C1 counterexample: for the derived-area expression `GaussianFit` actually
installs (`amplitude / bin_width`), the spec's formula fails at amplitude 1,
width 1, bin-width 1: the code derives area 1 whereas
amplitude × width × √(2π) / bin-width is √(2π) ≠ 1. -/
theorem C1_counterexample :
    gfAreaExpr (1 : ℝ) 1 ≠ specAreaFormula (Real.sqrt (2 * Real.pi)) 1 1 1 := by
  simp only [gfAreaExpr, specAreaFormula, one_mul, mul_one, div_one]
  intro h
  have h2 : (1 : ℝ) < 2 * Real.pi := by nlinarith [Real.pi_gt_three]
  have h3 : Real.sqrt 1 < Real.sqrt (2 * Real.pi) := Real.sqrt_lt_sqrt (by norm_num) h2
  rw [Real.sqrt_one] at h3
  rw [← h] at h3
  exact lt_irrefl _ h3

/-- C1 amended: the tests' `MultipleGaussianFit` derives
area = amplitude × width × √(2π) / bin-width exactly as the claim states;
`GaussianFit` instead derives area = amplitude / bin-width, where its
amplitude is lmfit `GaussianModel`'s integral parameter, so the claimed
formula holds for `GaussianFit` only in terms of the peak height
amplitude/(width·√(2π)) — the model's value at its center — not the reported
amplitude. -/
theorem C1_area_relation (A amp sigma w mu : ℝ) (hs : sigma ≠ 0) :
    mgfAreaExpr (Real.sqrt (2 * Real.pi)) amp sigma w
        = specAreaFormula (Real.sqrt (2 * Real.pi)) amp sigma w
    ∧ gfAreaExpr A w
        = specAreaFormula (Real.sqrt (2 * Real.pi))
            (gfHeight (Real.sqrt (2 * Real.pi)) A sigma) sigma w
    ∧ gaussianModelShape Real.exp (Real.sqrt (2 * Real.pi)) A mu sigma mu
        = gfHeight (Real.sqrt (2 * Real.pi)) A sigma := by
  have hr : Real.sqrt (2 * Real.pi) ≠ 0 := by
    have hpos : (0 : ℝ) < 2 * Real.pi := by positivity
    exact ne_of_gt (Real.sqrt_pos.mpr hpos)
  refine ⟨by unfold mgfAreaExpr specAreaFormula; ring, ?_, ?_⟩
  · have hA : A = gfHeight (Real.sqrt (2 * Real.pi)) A sigma * sigma * Real.sqrt (2 * Real.pi) := by
      unfold gfHeight
      field_simp
      ring
    unfold gfAreaExpr specAreaFormula
    exact congrArg (fun t => t / w) hA
  · unfold gaussianModelShape gfHeight
    simp

/-- Witness for C1 amended at amplitude, width, bin-width and center all 1. -/
theorem C1_area_relation_witness :
    ((1 : ℝ) ≠ 0)
    ∧ (mgfAreaExpr (Real.sqrt (2 * Real.pi)) 1 1 1
        = specAreaFormula (Real.sqrt (2 * Real.pi)) 1 1 1
    ∧ gfAreaExpr (1 : ℝ) 1
        = specAreaFormula (Real.sqrt (2 * Real.pi)) (gfHeight (Real.sqrt (2 * Real.pi)) 1 1) 1 1
    ∧ gaussianModelShape Real.exp (Real.sqrt (2 * Real.pi)) 1 1 1 1
        = gfHeight (Real.sqrt (2 * Real.pi)) 1 1) :=
  ⟨one_ne_zero, C1_area_relation 1 1 1 1 1 one_ne_zero⟩

theorem mkPlan_ok (counts centers pm : List ℚ) (bgm : List (ℚ × ℚ)) (bp : BgParams)
    (m0 m1 : ℚ) (bgp : List (String × ParamSpec))
    (hlen : centers.length = counts.length) (h2 : ¬ centers.length < 2)
    (hpm : pm ≠ []) (hd : bgDispatch bp = .ok bgp) :
    mkPlan counts centers [m0, m1] pm bgm bp
      = .ok ⟨centers.getD 1 0 - centers.getD 0 0, min m0 m1, max m0 m1,
             ((centers.zip counts).filter
               (fun p => regionPred (min m0 m1) (max m0 m1) p.1)).map Prod.fst,
             ((centers.zip counts).filter
               (fun p => regionPred (min m0 m1) (max m0 m1) p.1)).map Prod.snd,
             (List.insertionSort (· ≤ ·) pm).filter
               (fun p => regionPred (min m0 m1) (max m0 m1) p),
             bp.bg_type, bgp,
             (bgCollect centers counts (effectiveBgRanges (min m0 m1) (max m0 m1)
                (centers.getD 1 0 - centers.getD 0 0) bgm)).map Prod.fst,
             (bgCollect centers counts (effectiveBgRanges (min m0 m1) (max m0 m1)
                (centers.getD 1 0 - centers.getD 0 0) bgm)).map Prod.snd⟩ := by
  have hpm' : pm.isEmpty = false := by
    cases pm with
    | nil => exact absurd rfl hpm
    | cons a t => rfl
  unfold mkPlan
  rw [if_neg (not_not_intro hlen), if_neg h2, if_neg (by simp)]
  simp only [List.getD_cons_zero, List.getD_cons_succ, mkPlanCore, hpm', Bool.false_and,
    Bool.false_eq_true, if_false, hd]

/-- C4 counterexample: with the single peak guess 10 outside the region [1, 3],
the call fails with numpy's empty-argmax error — not one of the explicit
validation raises — and only after the background pre-fit solver has already
run (the event trace contains `bgSolve`). -/
theorem C4_counterexample :
    runFit testBgSolve testMainSolve [0, 1, 10, 1, 0] [0, 1, 2, 3, 4] [1, 3] [10] [] true true
        defaultBgParams = (.error .argmaxEmpty, [.bgSolve])
    ∧ Err.argmaxEmpty ∉ explicitRaises
    ∧ errMessage .argmaxEmpty = "attempt to get argmax of an empty sequence" := by
  refine ⟨by with_unfolding_all decide, by decide, rfl⟩

/-- C4 amended: when every peak guess lies outside the sorted region, the fit
does fail — with numpy's unguarded empty-argmax `ValueError` at the
strongest-peak search, not an explicit validation raise — and it fails only
after the background pre-fit solver call; the joint solver is never
reached. -/
theorem C4_all_guesses_outside
    (bgS : String → List (String × ParamSpec) → List ℚ → List ℚ → BgResult)
    (mS : List (String × ParamSpec) → List PeakParamSet → List ℚ → List ℚ → MainResult)
    (counts centers pm : List ℚ) (bgm : List (ℚ × ℚ)) (es fp : Bool) (bp : BgParams)
    (m0 m1 : ℚ) (bgp : List (String × ParamSpec))
    (hlen : centers.length = counts.length) (h2 : ¬ centers.length < 2)
    (hd : bgDispatch bp = .ok bgp) (hpm : pm ≠ [])
    (hout : ∀ p ∈ pm, regionPred (min m0 m1) (max m0 m1) p = false) :
    runFit bgS mS counts centers [m0, m1] pm bgm es fp bp = (.error .argmaxEmpty, [.bgSolve])
    ∧ Err.argmaxEmpty ∉ explicitRaises := by
  refine ⟨?_, by decide⟩
  unfold runFit
  rw [mkPlan_ok counts centers pm bgm bp m0 m1 bgp hlen h2 hpm hd]
  have hfil : (List.insertionSort (· ≤ ·) pm).filter
      (fun p => regionPred (min m0 m1) (max m0 m1) p) = [] := by
    rw [List.filter_eq_nil_iff]
    intro a ha
    have ham : a ∈ pm := (List.perm_insertionSort (· ≤ ·) pm).mem_iff.mp ha
    simp [hout a ham]
  simp only [hfil, List.isEmpty_nil, if_true]

/-- Witness for C4 amended: concrete five-bin histogram, region [1, 3], the
single peak guess at 10. -/
theorem C4_all_guesses_outside_witness :
    (([0, 1, 2, 3, 4] : List ℚ).length = ([0, 1, 10, 1, 0] : List ℚ).length
     ∧ ¬ ([0, 1, 2, 3, 4] : List ℚ).length < 2
     ∧ bgDispatch defaultBgParams
         = .ok [("bg_slope", ⟨1, none, none, true, none⟩),
                ("bg_intercept", ⟨0, none, none, true, none⟩)]
     ∧ ([10] : List ℚ) ≠ []
     ∧ (∀ p ∈ ([10] : List ℚ), regionPred (min 1 3) (max 1 3) p = false))
    ∧ (runFit testBgSolve testMainSolve [0, 1, 10, 1, 0] [0, 1, 2, 3, 4] [1, 3] [10] [] true true
          defaultBgParams = (.error .argmaxEmpty, [.bgSolve])
       ∧ Err.argmaxEmpty ∉ explicitRaises) :=
  ⟨⟨rfl, by decide, by decide, by decide, by with_unfolding_all decide⟩,
   C4_all_guesses_outside testBgSolve testMainSolve [0, 1, 10, 1, 0] [0, 1, 2, 3, 4] [10] []
     true true defaultBgParams 1 3
     [("bg_slope", ⟨1, none, none, true, none⟩), ("bg_intercept", ⟨0, none, none, true, none⟩)]
     rfl (by decide) (by decide) (by decide) (by with_unfolding_all decide)⟩

/-- C3 counterexample: with the reversed region markers [3, 1] the fit does
not raise at all — the markers are sorted and the call completes, running both
the background and the joint solver. -/
theorem C3_counterexample :
    exOk (runFit testBgSolve testMainSolve [0, 1, 10, 1, 0] [0, 1, 2, 3, 4] [3, 1] [2] [] true true
        defaultBgParams).1 = true
    ∧ (runFit testBgSolve testMainSolve [0, 1, 10, 1, 0] [0, 1, 2, 3, 4] [3, 1] [2] [] true true
        defaultBgParams).2 = [.bgSolve, .mainSolve] := by
  refine ⟨?_, ?_⟩ <;> with_unfolding_all decide

/-- C3 amended: reversed region markers are sorted, not rejected — the run is
identical to the one with the markers in order.  A region containing no bin
center fails with numpy's unguarded empty-argmax error: before any solver
call when no peak guesses were given, but only after the background pre-fit
solver call when peak guesses were supplied (then as an empty-argmax or
empty-argmin error, depending on whether any guess survives the region
filter). -/
theorem C3_region_handling
    (bgS : String → List (String × ParamSpec) → List ℚ → List ℚ → BgResult)
    (mS : List (String × ParamSpec) → List PeakParamSet → List ℚ → List ℚ → MainResult)
    (counts centers pm : List ℚ) (bgm : List (ℚ × ℚ)) (es fp : Bool) (bp : BgParams)
    (m0 m1 : ℚ)
    (hlen : centers.length = counts.length) (h2 : ¬ centers.length < 2)
    (hok : exOk (bgDispatch bp) = true) :
    runFit bgS mS counts centers [m1, m0] pm bgm es fp bp
        = runFit bgS mS counts centers [m0, m1] pm bgm es fp bp
    ∧ ((∀ c ∈ centers, regionPred (min m0 m1) (max m0 m1) c = false) → pm = [] →
        runFit bgS mS counts centers [m0, m1] pm bgm es fp bp = (.error .argmaxEmpty, []))
    ∧ ((∀ c ∈ centers, regionPred (min m0 m1) (max m0 m1) c = false) → pm ≠ [] →
        (runFit bgS mS counts centers [m0, m1] pm bgm es fp bp).2 = [.bgSolve]
        ∧ ((runFit bgS mS counts centers [m0, m1] pm bgm es fp bp).1 = .error .argmaxEmpty
           ∨ (runFit bgS mS counts centers [m0, m1] pm bgm es fp bp).1
               = .error .argminEmpty)) := by
  refine ⟨runFit_eq_of_plan bgS mS _ _ _ _ _ _ _ _ _ _ _ _ es fp
    (mkPlan_swap counts centers pm bgm bp m0 m1), ?_, ?_⟩
  all_goals intro hreg hpm
  case _ =>
    -- no peak guesses, empty region: the default-peak argmax fails first
    have hfil : (centers.zip counts).filter
        (fun p => regionPred (min m0 m1) (max m0 m1) p.1) = [] := by
      rw [List.filter_eq_nil_iff]
      rintro ⟨c, y⟩ hp
      have hc := (List.of_mem_zip hp).1
      simp [hreg c hc]
    have hplan : mkPlan counts centers [m0, m1] pm bgm bp = .error .argmaxEmpty := by
      subst hpm
      unfold mkPlan
      rw [if_neg (not_not_intro hlen), if_neg h2, if_neg (by simp)]
      simp only [List.getD_cons_zero, List.getD_cons_succ, mkPlanCore, hfil]
      simp
    unfold runFit
    rw [hplan]
  case _ =>
    obtain ⟨bgp, hd⟩ : ∃ l, bgDispatch bp = .ok l := by
      cases hd : bgDispatch bp with
      | error e => rw [hd] at hok; simp [exOk] at hok
      | ok l => exact ⟨l, rfl⟩
    have hfil : (centers.zip counts).filter
        (fun p => regionPred (min m0 m1) (max m0 m1) p.1) = [] := by
      rw [List.filter_eq_nil_iff]
      rintro ⟨c, y⟩ hp
      have hc := (List.of_mem_zip hp).1
      simp [hreg c hc]
    unfold runFit
    rw [mkPlan_ok counts centers pm bgm bp m0 m1 bgp hlen h2 hpm hd]
    simp only [hfil, List.map_nil]
    cases hv : ((List.insertionSort (· ≤ ·) pm).filter
        (fun p => regionPred (min m0 m1) (max m0 m1) p)).isEmpty
    · simp [hv]
    · simp [hv]

/-- Witness for C3 amended: four-bin histogram with the region [10, 12]
containing no bin center and no peak guesses. -/
theorem C3_region_handling_witness :
    (([0, 1, 2, 3] : List ℚ).length = ([5, 6, 7, 8] : List ℚ).length
     ∧ ¬ ([0, 1, 2, 3] : List ℚ).length < 2
     ∧ exOk (bgDispatch defaultBgParams) = true)
    ∧ (runFit testBgSolve testMainSolve [5, 6, 7, 8] [0, 1, 2, 3] [12, 10] [] [] true true
          defaultBgParams
        = runFit testBgSolve testMainSolve [5, 6, 7, 8] [0, 1, 2, 3] [10, 12] [] [] true true
          defaultBgParams
    ∧ ((∀ c ∈ ([0, 1, 2, 3] : List ℚ), regionPred (min 10 12) (max 10 12) c = false) →
        ([] : List ℚ) = [] →
        runFit testBgSolve testMainSolve [5, 6, 7, 8] [0, 1, 2, 3] [10, 12] [] [] true true
          defaultBgParams = (.error .argmaxEmpty, []))
    ∧ ((∀ c ∈ ([0, 1, 2, 3] : List ℚ), regionPred (min 10 12) (max 10 12) c = false) →
        ([] : List ℚ) ≠ [] →
        (runFit testBgSolve testMainSolve [5, 6, 7, 8] [0, 1, 2, 3] [10, 12] [] [] true true
          defaultBgParams).2 = [.bgSolve]
        ∧ ((runFit testBgSolve testMainSolve [5, 6, 7, 8] [0, 1, 2, 3] [10, 12] [] [] true true
              defaultBgParams).1 = .error .argmaxEmpty
           ∨ (runFit testBgSolve testMainSolve [5, 6, 7, 8] [0, 1, 2, 3] [10, 12] [] [] true true
              defaultBgParams).1 = .error .argminEmpty))) :=
  ⟨⟨rfl, by decide, by decide⟩,
   C3_region_handling testBgSolve testMainSolve [5, 6, 7, 8] [0, 1, 2, 3] [] [] true true
     defaultBgParams 10 12 rfl (by decide) (by decide)⟩

/-- C2 counterexample: two histograms agree on every bin whose center lies in
the region [1, 3] but differ at the bin with center 0 — outside the region,
inside the default side-band [0, 1] — and the fit results differ, because that
bin feeds the background pre-fit whose frozen result enters the amplitude
estimates and the joint fit. -/
theorem C2_counterexample :
    (∀ i, i < 5 → regionPred 1 3 (([0, 1, 2, 3, 4] : List ℚ).getD i 0) = true →
      ([0, 1, 10, 1, 0] : List ℚ).getD i 0 = ([5, 1, 10, 1, 0] : List ℚ).getD i 0)
    ∧ planBgY (mkPlan [0, 1, 10, 1, 0] [0, 1, 2, 3, 4] [1, 3] [2] [] defaultBgParams)
      ≠ planBgY (mkPlan [5, 1, 10, 1, 0] [0, 1, 2, 3, 4] [1, 3] [2] [] defaultBgParams)
    ∧ runFit testBgSolve testMainSolve [0, 1, 10, 1, 0] [0, 1, 2, 3, 4] [1, 3] [2] [] true true
        defaultBgParams
      ≠ runFit testBgSolve testMainSolve [5, 1, 10, 1, 0] [0, 1, 2, 3, 4] [1, 3] [2] [] true true
        defaultBgParams := by
  refine ⟨by with_unfolding_all decide, by with_unfolding_all decide, fun h => ?_⟩
  exact absurd (congrArg firstAmplitude h) (by with_unfolding_all decide)

/-- C2 amended: noninterference holds for the bins outside both the region and
the effective background ranges — if two equal-length count lists agree on
every bin whose center is influential (inside the closed region, or inside a
background range, the default ranges being one bin-width around each region
edge), the whole pipeline outcome is identical, for every choice of external
solvers. -/
theorem C2_noninterference
    (bgS : String → List (String × ParamSpec) → List ℚ → List ℚ → BgResult)
    (mS : List (String × ParamSpec) → List PeakParamSet → List ℚ → List ℚ → MainResult)
    (centers counts1 counts2 pm : List ℚ) (m0 m1 : ℚ) (bgm : List (ℚ × ℚ))
    (es fp : Bool) (bp : BgParams)
    (hlen : counts1.length = counts2.length)
    (hag : ∀ i, i < centers.length →
      influentialB (min m0 m1) (max m0 m1) (centers.getD 1 0 - centers.getD 0 0) bgm
          (centers.getD i 0) = true →
      counts1.getD i 0 = counts2.getD i 0) :
    runFit bgS mS counts1 centers [m0, m1] pm bgm es fp bp
      = runFit bgS mS counts2 centers [m0, m1] pm bgm es fp bp := by
  apply runFit_eq_of_plan
  unfold mkPlan
  rw [hlen]
  by_cases hc : centers.length ≠ counts2.length
  · rw [if_pos hc, if_pos hc]
  · rw [if_neg hc, if_neg hc]
    by_cases h2 : centers.length < 2
    · rw [if_pos h2, if_pos h2]
    · rw [if_neg h2, if_neg h2, if_neg (by simp), if_neg (by simp)]
      simp only [List.getD_cons_zero, List.getD_cons_succ]
      exact mkPlanCore_counts_congr _ _ _ _ _ _ _ _ _ hlen hag

/-- Witness for C2 amended: two seven-bin histograms differing only at the
centers 0 and 6 — outside the region [2, 4] and outside both default
side-bands — produce identical pipeline outcomes. -/
theorem C2_noninterference_witness :
    (([0, 0, 10, 20, 10, 0, 0] : List ℚ).length = ([9, 0, 10, 20, 10, 0, 7] : List ℚ).length
     ∧ (∀ i, i < ([0, 1, 2, 3, 4, 5, 6] : List ℚ).length →
         influentialB (min 2 4) (max 2 4)
             (([0, 1, 2, 3, 4, 5, 6] : List ℚ).getD 1 0 - ([0, 1, 2, 3, 4, 5, 6] : List ℚ).getD 0 0)
             [] (([0, 1, 2, 3, 4, 5, 6] : List ℚ).getD i 0) = true →
         ([0, 0, 10, 20, 10, 0, 0] : List ℚ).getD i 0
           = ([9, 0, 10, 20, 10, 0, 7] : List ℚ).getD i 0))
    ∧ runFit testBgSolve testMainSolve [0, 0, 10, 20, 10, 0, 0] [0, 1, 2, 3, 4, 5, 6] [2, 4] [3]
        [] true true defaultBgParams
      = runFit testBgSolve testMainSolve [9, 0, 10, 20, 10, 0, 7] [0, 1, 2, 3, 4, 5, 6] [2, 4] [3]
        [] true true defaultBgParams :=
  ⟨⟨rfl, by with_unfolding_all decide⟩,
   C2_noninterference testBgSolve testMainSolve [0, 1, 2, 3, 4, 5, 6] [0, 0, 10, 20, 10, 0, 0]
     [9, 0, 10, 20, 10, 0, 7] [3] 2 4 [] true true defaultBgParams rfl
     (by with_unfolding_all decide)⟩
